import Mathlib

/-!
Shallow embedding of the DTLS peer-association engine from the pydtls
sources (dtls/sslconnection.py and dtls/openssl.py), together with proofs
about its behavior.

Conventions of the embedding:
- Python exceptions are modelled with Except; a function that can raise
  returns an Except value, and state mutated before a raise is threaded
  explicitly.
- The OpenSSL primitives (SSL_do_handshake, SSL_shutdown, DTLSv1_listen)
  are external collaborators; each call site takes the outcome of the call
  as an explicit argument of type Except OpenSSLError.
- Machine integers are Nat with explicit bounds where overflow matters.
- Python truthiness of optional strings and socket timeouts is modelled by
  dedicated Bool-valued functions.
-/

deriving instance DecidableEq for Except

namespace PyDTLS

/-- Peer address tuples: a 2-tuple (IPv4 host, port) or a 4-tuple
(IPv6 host, port, flowinfo, scope id), as used throughout sslconnection.py. -/
inductive AddrTuple where
  | v4 (host : String) (port : Nat)
  | v6 (host : String) (port : Nat) (flowinfo : Nat) (scopeId : Nat)
deriving DecidableEq

/-- OpenSSL error code SSL_ERROR_WANT_READ (standard OpenSSL value). -/
def SSL_ERROR_WANT_READ : Nat := 2

/-- OpenSSL error code SSL_ERROR_SYSCALL (standard OpenSSL value). -/
def SSL_ERROR_SYSCALL : Nat := 5

/-- Modelled from the spec: the error tag BothKeyAndCertRequired raised by
the err module, which is not among the sources; only distinctness of the
tags matters to the engine logic. -/
def ERR_BOTH_KEY_CERT_FILES : Nat := 300

/-- Modelled from the spec: the error tag ServerRequiresKeyAndCert of the
err module (not among the sources). -/
def ERR_BOTH_KEY_CERT_FILES_SVR : Nat := 301

/-- Modelled from the spec: the error tag NoTrustAnchors of the err module
(not among the sources). -/
def ERR_NO_CERTS : Nat := 302

/-- Modelled from the spec: the error tag NoCipher of the err module (not
among the sources). -/
def ERR_NO_CIPHER : Nat := 303

/-- Modelled from the spec: the error tag HandshakeTimeout of the err
module (not among the sources). -/
def ERR_HANDSHAKE_TIMEOUT : Nat := 304

/-- Modelled from the spec: the error tag PortUnreachable of the err
module (not among the sources). -/
def ERR_PORT_UNREACHABLE : Nat := 305

/-- Modelled from the spec: the error tag CookieMismatch of the err module
(not among the sources), compared against the first entry of the OpenSSL
error queue inside listen(). -/
def ERR_COOKIE_MISMATCH : Nat := 306

/-- errno.EWOULDBLOCK as on Linux. -/
def EWOULDBLOCK : Nat := 11

/-- Certificate requirement levels, matching the ssl module of the
standard library (sslconnection.py lines 44 to 46). -/
def CERT_NONE : Nat := 0

/-- Certificate requirement level optional. -/
def CERT_OPTIONAL : Nat := 1

/-- Certificate requirement level required. -/
def CERT_REQUIRED : Nat := 2

/-- An error raised by the OpenSSL wrapper layer (openssl.py,
raise_ssl_error at lines 401 to 417): SSL error class, the failing
result value, and the drained error queue of (code, message) pairs. -/
structure OpenSSLError where
  ssl_error : Nat
  result : Int
  errqueue : List (Nat × String)
deriving DecidableEq

/-- Errors surfaced by the engine: a translated error tag with its OpenSSL
cause, a configuration error tag raised without a cause, an OpenSSL error
re-raised unchanged, or a propagated socket error. -/
inductive DtlsError where
  | sslError (code : Nat) (cause : OpenSSLError)
  | configError (code : Nat)
  | openssl (e : OpenSSLError)
  | sockError (errnum : Nat)
deriving DecidableEq

/-- Python truthiness of an optional string argument: None and the empty
string are falsy. -/
def pyTruthyStr : Option String → Bool
  | none => false
  | some s => !(s == "")

/-- Python truthiness of a socket timeout as returned by gettimeout():
None (blocking) and 0.0 (non-blocking) are falsy, a positive timeout is
truthy. Timeouts are modelled as rationals. -/
def pyTruthyTimeout : Option Rat → Bool
  | none => false
  | some t => if t = 0 then false else true

/-- SSLConnection.do_handshake (sslconnection.py lines 419 to 438).
The outcome of the SSL_do_handshake primitive is passed in as hsRes and
inboundTimeout is gettimeout() of the socket returned by
get_socket(True). On success the handshake_done flag becomes true. -/
def do_handshake (inboundTimeout : Option Rat) (hsRes : Except OpenSSLError Unit) :
    Except DtlsError Bool :=
  match hsRes with
  | .ok _ => .ok true
  | .error err =>
    if err.ssl_error == SSL_ERROR_WANT_READ && pyTruthyTimeout inboundTimeout then
      .error (.sslError ERR_HANDSHAKE_TIMEOUT err)
    else if err.ssl_error == SSL_ERROR_SYSCALL && err.result == -1 then
      .error (.sslError ERR_PORT_UNREACHABLE err)
    else
      .error (.openssl err)

/-- The argument-validation prefix of SSLConnection.__init__
(sslconnection.py lines 248 to 253). -/
def init_checks (keyfile certfile : Option String) (server_side : Bool)
    (cert_reqs : Nat) (ca_certs : Option String) : Except DtlsError Unit :=
  if (pyTruthyStr keyfile && !(pyTruthyStr certfile)) ||
     (pyTruthyStr certfile && !(pyTruthyStr keyfile)) then
    .error (.configError ERR_BOTH_KEY_CERT_FILES)
  else if server_side && !(pyTruthyStr keyfile) then
    .error (.configError ERR_BOTH_KEY_CERT_FILES_SVR)
  else if cert_reqs != CERT_NONE && !(pyTruthyStr ca_certs) then
    .error (.configError ERR_NO_CERTS)
  else
    .ok ()

/-- Result of getpeercert: DER bytes or a decoded certificate
dictionary (modelled as an association list). -/
inductive CertAnswer where
  | der (bytes : List Nat)
  | dict (entries : List (String × String))
deriving DecidableEq

/-- SSLConnection.getpeercert (sslconnection.py lines 502 to 525).
peer_der is the DER certificate held by the SSL session, none when
SSL_get_peer_certificate returned NULL (in which case the _X509 wrapper
construction raises and the method returns None). i2d_X509 re-serializes
the certificate to its DER bytes, modelled as the identity on the held
DER; decode_cert belongs to the x509 module (an external collaborator
here) and is passed in as a function. -/
def getpeercert (decode_cert : List Nat → List (String × String)) (cert_reqs : Nat)
    (peer_der : Option (List Nat)) (binary_form : Bool) : Option CertAnswer :=
  match peer_der with
  | none => none
  | some d =>
    if binary_form then some (.der d)
    else if cert_reqs == CERT_NONE then some (.dict [])
    else some (.dict (decode_cert d))

/-- The generate-cookie trampoline py_generate_cookie_cb installed by
SSL_CTX_set_cookie_cb (openssl.py lines 683 to 692). The registered
callback is modelled by its outcome: an exception message or the returned
cookie bytes. The result is the integer returned to OpenSSL, the cookie
bytes copied out through memmove (none when nothing was written), and
whether the failure was logged. -/
def py_generate_cookie_cb (generate : Except String (List Nat)) :
    Int × Option (List Nat) × Bool :=
  match generate with
  | .error _ => (0, none, true)
  | .ok ret => (1, some ret, false)

/-- The verify-cookie trampoline py_verify_cookie_cb installed by
SSL_CTX_set_cookie_cb (openssl.py lines 694 to 701): the integer returned
to OpenSSL and whether a failure was logged. -/
def py_verify_cookie_cb (verify : Except String Unit) : Int × Bool :=
  match verify with
  | .error _ => (0, true)
  | .ok _ => (1, false)

/-- What UDPDemux.service() reported to listen(): a new-peer value for a
routing demux (an address tuple), a non-tuple new-peer indicator for the
platform demux, or a known-peer/no-data outcome. -/
inductive DemuxPeer where
  | tuple (a : AddrTuple)
  | nontuple (tag : Nat)
deriving DecidableEq

/-- Outcome of the demux service() call inside listen(): socket.timeout,
a socket.error with an errno, or a normal return carrying an optional
new-peer value. -/
inductive ServiceResult where
  | timeout
  | sockFail (errnum : Nat)
  | peer (p : Option DemuxPeer)
deriving DecidableEq

/-- The mutable state of an SSLConnection that the modelled operations
read or write. has_listening is hasattr(self, _listening), true exactly
for server-Listener connections; has_demux is hasattr(self, _udp_demux);
same_bio is whether the read and write BIOs are one object (client side);
forwarded counts demux.forward() calls. -/
structure ConnState where
  has_listening : Bool
  has_demux : Bool
  same_bio : Bool
  pending_peer_address : Option AddrTuple
  listening : Bool
  listening_peer_address : Option AddrTuple
  handshake_done : Bool
  wbio_peer : Option AddrTuple
  wbio_nbio : Bool
  rbio_nbio : Bool
  read_ahead : Bool
  forwarded : Nat
deriving DecidableEq

/-- Calls into the OpenSSL layer observable in a trace of shutdown():
an SSL_shutdown invocation, an SSL_set_read_ahead toggle, and a
BIO_set_nbio toggle (writeSide tells which BIO). -/
inductive TraceEvent where
  | sslShutdownCall
  | setReadAhead (enabled : Bool)
  | setNbio (writeSide : Bool) (nb : Bool)
deriving DecidableEq

/-- SSLConnection._check_nbio (sslconnection.py lines 214 to 217): set the
write BIO, and when distinct the read BIO, to non-blocking mode exactly
when the corresponding socket has a timeout that is not None. -/
def check_nbio (st : ConnState) (sockT rsockT : Option Rat) :
    ConnState × List TraceEvent :=
  if st.same_bio then
    ({ st with wbio_nbio := sockT.isSome }, [.setNbio true sockT.isSome])
  else
    ({ st with wbio_nbio := sockT.isSome, rbio_nbio := rsockT.isSome },
     [.setNbio true sockT.isSome, .setNbio false rsockT.isSome])

/-- Return value of shutdown(): nothing for a Listener, the wrapped
_UnwrappedSocket (carrying the remembered peer address) when a demux is
present, or the plain client socket. -/
inductive ShutdownRet where
  | listenerNoop
  | unwrappedSock (peer : Option AddrTuple)
  | plainSock
deriving DecidableEq

/-- SSLConnection.shutdown (sslconnection.py lines 469 to 500). The
outcomes of the at most two SSL_shutdown calls are passed in as first and
second. Produces the final state, the trace of OpenSSL calls made after
the listener check, and the result or raised error. -/
def shutdown (st : ConnState) (sockT rsockT : Option Rat)
    (first second : Except OpenSSLError Unit) :
    ConnState × List TraceEvent × Except DtlsError ShutdownRet :=
  if st.has_listening then (st, [], .ok .listenerNoop)
  else
    let c := check_nbio st sockT rsockT
    let ret : ShutdownRet :=
      if c.1.has_demux then .unwrappedSock c.1.wbio_peer else .plainSock
    match first with
    | .ok _ => (c.1, c.2 ++ [.sslShutdownCall], .ok ret)
    | .error e =>
      if e.result == 0 then
        match second with
        | .ok _ => (c.1, c.2 ++ [.sslShutdownCall, .sslShutdownCall], .ok ret)
        | .error e2 =>
          (c.1, c.2 ++ [.sslShutdownCall, .sslShutdownCall], .error (.openssl e2))
      else (c.1, c.2 ++ [.sslShutdownCall], .error (.openssl e))

/-- Whether the first entry of the drained OpenSSL error queue carries the
cookie-mismatch code, as tested by listen() (sslconnection.py line 354). -/
def errqueue_head_cookie_mismatch (e : OpenSSLError) : Bool :=
  match e.errqueue with
  | [] => false
  | (code, _) :: _ => code == ERR_COOKIE_MISMATCH

/-- SSLConnection.listen (sslconnection.py lines 303 to 368). svc is the
outcome of demux.service() and dtls the outcome of DTLSv1_listen (only
consulted when a new-peer value was observed). Produces the final state
and the returned pending peer address or raised error. -/
def listen (st : ConnState) (sockT rsockT : Option Rat) (svc : ServiceResult)
    (dtls : Except OpenSSLError AddrTuple) :
    ConnState × Except DtlsError (Option AddrTuple) :=
  let st0 := { st with pending_peer_address := none }
  match svc with
  | .timeout => (st0, .ok none)
  | .sockFail errnum =>
    if errnum != EWOULDBLOCK then (st0, .error (.sockError errnum))
    else (st0, .ok none)
  | .peer none => (st0, .ok none)
  | .peer (some dp) =>
    let st1 :=
      match dp with
      | .tuple a =>
        { st0 with wbio_peer := some a, forwarded := st0.forwarded + 1,
                   listening_peer_address := some a }
      | .nontuple _ => st0
    let st2 := (check_nbio st1 sockT rsockT).1
    let st3 := { st2 with listening := true }
    match dtls with
    | .error err =>
      let st4 := { st3 with listening := false, listening_peer_address := none }
      if err.ssl_error == SSL_ERROR_WANT_READ then (st4, .ok none)
      else if errqueue_head_cookie_mismatch err then (st4, .ok none)
      else (st4, .error (.openssl err))
    | .ok dtlsPeer =>
      let st4 := { st3 with listening := false, listening_peer_address := none }
      let pending : Option AddrTuple :=
        match dp with
        | .tuple a => some a
        | .nontuple _ => some dtlsPeer
      ({ st4 with pending_peer_address := pending }, .ok pending)

/-- Address family AF_INET as on Linux. -/
def AF_INET : Nat := 2

/-- Address family AF_INET6 as on Linux. -/
def AF_INET6 : Nat := 10

/-- socket.htons on a little-endian host: swap the two bytes of a 16-bit
value. -/
def htons (x : Nat) : Nat := (x % 256) * 256 + (x / 256) % 256

/-- socket.ntohs, the inverse direction of the same byte swap. -/
def ntohs (x : Nat) : Nat := htons x

/-- socket.htonl on a little-endian host: reverse the four bytes of a
32-bit value. -/
def htonl (x : Nat) : Nat :=
  (x % 256) * 16777216 + ((x / 256) % 256) * 65536 +
    ((x / 65536) % 256) * 256 + (x / 16777216) % 256

/-- socket.ntohl, the inverse direction of the same byte swap. -/
def ntohl (x : Nat) : Nat := htonl x

/-- The sockaddr_u union of openssl.py (lines 302 to 322). The union is
modelled with one field per overlay member that the two conversion
functions touch; a zero-initialized instance has every numeric field 0. -/
structure sockaddr_u where
  ss_family : Nat := 0
  sin_port : Nat := 0
  sin_addr : List Nat := []
  sin6_port : Nat := 0
  sin6_flowinfo : Nat := 0
  sin6_addr : List Nat := []
  sin6_scope_id : Nat := 0
deriving DecidableEq

/-- sockaddr_u_from_addr_tuple (openssl.py lines 384 to 396). The
platform conversions inet_pton for each family are external collaborators
passed in as functions returning the packed 32-bit words. -/
def sockaddr_u_from_addr_tuple (pton4 pton6 : String → List Nat)
    (address : AddrTuple) : sockaddr_u :=
  match address with
  | .v4 h p =>
    { ss_family := AF_INET, sin_addr := pton4 h, sin_port := htons p }
  | .v6 h p f s =>
    { ss_family := AF_INET6, sin6_addr := pton6 h, sin6_port := htons p,
      sin6_flowinfo := htonl f, sin6_scope_id := htonl s }

/-- addr_tuple_from_sockaddr_u (openssl.py lines 374 to 382), with the
platform conversions inet_ntop passed in as functions. -/
def addr_tuple_from_sockaddr_u (ntop4 ntop6 : List Nat → String)
    (su : sockaddr_u) : AddrTuple :=
  if su.ss_family == AF_INET6 then
    .v6 (ntop6 su.sin6_addr) (ntohs su.sin6_port)
      (ntohl su.sin6_flowinfo) (ntohl su.sin6_scope_id)
  else
    .v4 (ntop4 su.sin_addr) (ntohs su.sin_port)

/-- The single-quote character used by the Python repr of a string inside
str(tuple). -/
def quoteChar : Char := Char.ofNat 39

/-- The decimal digit character for a digit value d. -/
def digitChar10 (d : Nat) : Char := Char.ofNat (48 + d)

/-- The decimal rendering of a natural number as Python str produces it
(most significant digit first, a single 0 for zero). -/
def natChars (n : Nat) : List Char :=
  if n = 0 then [digitChar10 0] else ((Nat.digits 10 n).map digitChar10).reverse

/-- Numeric value of a digit character. -/
def charVal (c : Char) : Nat := c.toNat - 48

/-- Parse a decimal digit string back to its value. -/
def parseNat (l : List Char) : Nat := Nat.ofDigits 10 (l.reverse.map charVal)

/-- Whether a character is a decimal digit. -/
def isDigitCh (c : Char) : Bool := decide (48 ≤ c.toNat) && decide (c.toNat ≤ 57)

/-- Whether a character differs from the single-quote character. -/
def notQuote (c : Char) : Bool := !(c == quoteChar)

/-- Render a nonempty list of integers the way Python str renders the
integer components of a tuple: decimal values separated by a comma and a
space. -/
def numsRender : List Nat → List Char
  | [] => []
  | n :: rest =>
    natChars n ++ (match rest with
      | [] => []
      | _ :: _ => ',' :: ' ' :: numsRender rest)

/-- Python str(peer_address) for an address tuple, as hashed by
SSLConnection._get_cookie (sslconnection.py line 226): the string host is
rendered between single quotes and the numeric components in decimal,
comma-space separated, all between parentheses. -/
def serializeAddr : AddrTuple → List Char
  | .v4 h p =>
    '(' :: quoteChar :: (h.data ++ quoteChar :: ',' :: ' ' :: (numsRender [p] ++ [')']))
  | .v6 h p f s =>
    '(' :: quoteChar :: (h.data ++ quoteChar :: ',' :: ' ' ::
      (numsRender [p, f, s] ++ [')']))

/-- Whether the host component of an address contains no single-quote
character (every host produced by inet_ntop satisfies this). -/
def hostOkAddr : AddrTuple → Bool
  | .v4 h _ => h.data.all notQuote
  | .v6 h _ _ _ => h.data.all notQuote

/-- SSLConnection._get_cookie (sslconnection.py lines 219 to 227).
hmacDigest models hmac.new(key, msg).digest() of the Python hmac module
(an external collaborator) and rndKey the process-lifetime _rnd_key. The
peer address is self._listening_peer_address when set, otherwise the peer
recorded in the read BIO. -/
def get_cookie (hmacDigest : List Nat → List Char → List Nat) (rndKey : List Nat)
    (listeningPeer : Option AddrTuple) (bioPeer : AddrTuple) : List Nat :=
  hmacDigest rndKey (serializeAddr (listeningPeer.getD bioPeer))

/-- SSLConnection._generate_cookie_cb for a peer address a (listening
state, with _listening_peer_address set to a). -/
def generate_cookie (hmacDigest : List Nat → List Char → List Nat)
    (rndKey : List Nat) (a : AddrTuple) : List Nat :=
  get_cookie hmacDigest rndKey (some a) a

/-- SSLConnection._verify_cookie_cb for a peer address a: it raises
exactly when the recomputed cookie differs from the presented one, and the
trampoline of openssl.py turns that into rejection; so acceptance is
equality with the recomputed cookie. -/
def verify_cookie (hmacDigest : List Nat → List Char → List Nat)
    (rndKey : List Nat) (a : AddrTuple) (cookie : List Nat) : Bool :=
  decide (get_cookie hmacDigest rndKey (some a) a = cookie)

/-- A concrete injective hmac stand-in used by witnesses: the code points
of the message. -/
def hmWit : List Nat → List Char → List Nat := fun _ m => m.map Char.toNat

/-- A concrete connection state used by witnesses. -/
def stWit : ConnState :=
  { has_listening := false, has_demux := true, same_bio := false,
    pending_peer_address := some (.v4 "9.9.9.9" 9), listening := false,
    listening_peer_address := none, handshake_done := false,
    wbio_peer := some (.v4 "8.8.8.8" 8), wbio_nbio := false,
    rbio_nbio := false, read_ahead := true, forwarded := 0 }

/-- stWit with the listener flag set, used by witnesses. -/
def stWitL : ConnState := { stWit with has_listening := true }

/-- A concrete WANT_READ handshake error used by witnesses. -/
def errWR : OpenSSLError := { ssl_error := 2, result := -1, errqueue := [] }

/-- A concrete SYSCALL handshake error with result -1 used by witnesses. -/
def errSys : OpenSSLError := { ssl_error := 5, result := -1, errqueue := [] }

/-- A concrete error that matches no translated case (result 0) used by
witnesses. -/
def errOther : OpenSSLError := { ssl_error := 1, result := 0, errqueue := [] }

/-- A concrete error whose queue head is the cookie-mismatch code, used by
witnesses. -/
def errCM : OpenSSLError :=
  { ssl_error := 1, result := -1, errqueue := [(ERR_COOKIE_MISMATCH, "cm")] }

/-- check_nbio does not touch the read-ahead flag. -/
theorem check_nbio_read_ahead (st : ConnState) (sockT rsockT : Option Rat) :
    (check_nbio st sockT rsockT).1.read_ahead = st.read_ahead := by
  unfold check_nbio
  split <;> rfl

/-- check_nbio does not touch the pending peer address. -/
theorem check_nbio_pending (st : ConnState) (sockT rsockT : Option Rat) :
    (check_nbio st sockT rsockT).1.pending_peer_address
      = st.pending_peer_address := by
  unfold check_nbio
  split <;> rfl

/-- check_nbio emits no SSL_set_read_ahead call. -/
theorem check_nbio_no_read_ahead_event (st : ConnState) (sockT rsockT : Option Rat)
    (b : Bool) : TraceEvent.setReadAhead b ∉ (check_nbio st sockT rsockT).2 := by
  unfold check_nbio
  split <;> simp

/-- Byte-swap of a 16-bit value presented as its two bytes. -/
theorem htons_bytes (a b : Nat) (ha : a < 256) (hb : b < 256) :
    htons (a * 256 + b) = b * 256 + a := by
  have n1 : (a * 256 + b) % 256 = b := by omega
  have n2 : (a * 256 + b) / 256 % 256 = a := by omega
  unfold htons
  rw [n1, n2]

/-- ntohs inverts htons on 16-bit values. -/
theorem ntohs_htons (p : Nat) (hp : p < 65536) : ntohs (htons p) = p := by
  have e1 : htons p = p % 256 * 256 + p / 256 % 256 := rfl
  rw [ntohs, e1, htons_bytes (p % 256) (p / 256 % 256) (by omega) (by omega)]
  omega

/-- Byte-swap of a 32-bit value presented as its four bytes. -/
theorem htonl_bytes (a b c d : Nat) (ha : a < 256) (hb : b < 256) (hc : c < 256)
    (hd : d < 256) :
    htonl (a * 16777216 + b * 65536 + c * 256 + d) =
      d * 16777216 + c * 65536 + b * 256 + a := by
  have n1 : (a * 16777216 + b * 65536 + c * 256 + d) % 256 = d := by omega
  have n2 : (a * 16777216 + b * 65536 + c * 256 + d) / 256 % 256 = c := by omega
  have n3 : (a * 16777216 + b * 65536 + c * 256 + d) / 65536 % 256 = b := by omega
  have n4 : (a * 16777216 + b * 65536 + c * 256 + d) / 16777216 % 256 = a := by omega
  unfold htonl
  rw [n1, n2, n3, n4]

/-- ntohl inverts htonl on 32-bit values. -/
theorem ntohl_htonl (x : Nat) (hx : x < 4294967296) : ntohl (htonl x) = x := by
  have e1 : htonl x = x % 256 * 16777216 + x / 256 % 256 * 65536 +
      x / 65536 % 256 * 256 + x / 16777216 % 256 := by
    unfold htonl
    have : x / 16777216 % 256 = x / 16777216 := by omega
    rw [this]
  rw [ntohl, e1, htonl_bytes (x % 256) (x / 256 % 256) (x / 65536 % 256)
    (x / 16777216 % 256) (by omega) (by omega) (by omega) (by omega)]
  have d1 : x / 256 / 256 = x / 65536 := by rw [Nat.div_div_eq_div_mul]
  have d2 : x / 65536 / 256 = x / 16777216 := by rw [Nat.div_div_eq_div_mul]
  omega

/-- Claim C2: in do_handshake, a WANT_READ failure on an inbound socket
with a finite (positive) timeout raises HandshakeTimeout; a SYSCALL
failure with result -1 raises PortUnreachable; every other failure of the
handshake primitive propagates unchanged; and on success the
handshake_done flag becomes true. -/
theorem claim_C2 (t : Option Rat) (err : OpenSSLError) :
    do_handshake t (.ok ()) = .ok true
    ∧ (∀ τ : Rat, t = some τ → 0 < τ → err.ssl_error = SSL_ERROR_WANT_READ →
        do_handshake t (.error err) = .error (.sslError ERR_HANDSHAKE_TIMEOUT err))
    ∧ (err.ssl_error = SSL_ERROR_SYSCALL → err.result = -1 →
        do_handshake t (.error err) = .error (.sslError ERR_PORT_UNREACHABLE err))
    ∧ (¬(err.ssl_error = SSL_ERROR_WANT_READ ∧ pyTruthyTimeout t = true) →
       ¬(err.ssl_error = SSL_ERROR_SYSCALL ∧ err.result = -1) →
        do_handshake t (.error err) = .error (.openssl err)) := by
  refine ⟨rfl, ?_, ?_, ?_⟩
  · intro τ ht hpos hwr
    subst ht
    have hne : τ ≠ 0 := ne_of_gt hpos
    simp [do_handshake, hwr, pyTruthyTimeout, hne]
  · intro hsys hres
    simp [do_handshake, hsys, hres, SSL_ERROR_SYSCALL, SSL_ERROR_WANT_READ]
  · intro h1 h2
    simp only [do_handshake, Bool.and_eq_true, beq_iff_eq]
    rw [if_neg h1, if_neg h2]

/-- Witness for claim C2 at concrete inputs. -/
theorem claim_C2_witness :
    do_handshake (some 5) (.error errWR)
      = .error (.sslError ERR_HANDSHAKE_TIMEOUT errWR)
    ∧ do_handshake none (.error errSys)
      = .error (.sslError ERR_PORT_UNREACHABLE errSys)
    ∧ do_handshake none (.error errOther) = .error (.openssl errOther)
    ∧ do_handshake none (.ok ()) = .ok true :=
  ⟨(claim_C2 (some 5) errWR).2.1 5 rfl (by decide) rfl,
   (claim_C2 none errSys).2.2.1 rfl rfl,
   (claim_C2 none errOther).2.2.2 (by decide) (by decide),
   (claim_C2 none errOther).1⟩

/-- Counterexample to claim C4 as stated: with keyfile supplied but no
certfile, construction with cert_reqs = required and no ca_certs fails
with the BothKeyAndCertRequired error, not with NoTrustAnchors. -/
theorem claim_C4_counterexample :
    ¬ (init_checks (some "k") none false CERT_REQUIRED none
        = .error (.configError ERR_NO_CERTS))
    ∧ init_checks (some "k") none false CERT_REQUIRED none
        = .error (.configError ERR_BOTH_KEY_CERT_FILES) := by
  constructor <;> decide

/-- Claim C4 (amended): with cert_reqs = required and no (truthy)
ca_certs, construction always fails; and it fails with the NoTrustAnchors
error whenever the keyfile/certfile checks pass, that is keyfile and
certfile are supplied together or omitted together, and on the server
side keyfile is supplied. -/
theorem claim_C4 (keyfile certfile : Option String) (server_side : Bool)
    (ca_certs : Option String) (hca : pyTruthyStr ca_certs = false) :
    (∃ e, init_checks keyfile certfile server_side CERT_REQUIRED ca_certs
        = .error e)
    ∧ (pyTruthyStr keyfile = pyTruthyStr certfile →
       (server_side = true → pyTruthyStr keyfile = true) →
       init_checks keyfile certfile server_side CERT_REQUIRED ca_certs
         = .error (.configError ERR_NO_CERTS)) := by
  constructor
  · unfold init_checks
    split
    · exact ⟨_, rfl⟩
    · split
      · exact ⟨_, rfl⟩
      · have hcond : (CERT_REQUIRED != CERT_NONE && !(pyTruthyStr ca_certs)) = true := by
          rw [hca]
          rfl
        rw [if_pos hcond]
        exact ⟨_, rfl⟩
  · intro hpair hss
    cases hk : pyTruthyStr keyfile <;> cases hc2 : pyTruthyStr certfile <;>
      cases server_side <;>
      simp_all [init_checks, CERT_REQUIRED, CERT_NONE]

/-- Witness for claim C4 (amended) at concrete inputs. -/
theorem claim_C4_witness :
    init_checks (some "k") (some "c") false CERT_REQUIRED none
      = .error (.configError ERR_NO_CERTS) :=
  (claim_C4 (some "k") (some "c") false none rfl).2 rfl (by decide)

/-- Claim C5: in shutdown() on a non-listening association, when the first
SSL_shutdown call fails with result 0, SSL_shutdown is called a second
time immediately, read-ahead is never toggled in between (no
SSL_set_read_ahead call appears in the trace and the read-ahead flag is
unchanged); and a first-call failure with any other result propagates to
the caller after a single call. -/
theorem claim_C5 (st : ConnState) (sockT rsockT : Option Rat)
    (e : OpenSSLError) (second : Except OpenSSLError Unit)
    (hL : st.has_listening = false) :
    (e.result = 0 →
      (shutdown st sockT rsockT (.error e) second).2.1
        = (check_nbio st sockT rsockT).2
            ++ [.sslShutdownCall, .sslShutdownCall]
      ∧ (∀ b, TraceEvent.setReadAhead b ∉
          (shutdown st sockT rsockT (.error e) second).2.1)
      ∧ (shutdown st sockT rsockT (.error e) second).1.read_ahead
          = st.read_ahead)
    ∧ (e.result ≠ 0 →
      (shutdown st sockT rsockT (.error e) second).2.2 = .error (.openssl e)
      ∧ (shutdown st sockT rsockT (.error e) second).2.1
        = (check_nbio st sockT rsockT).2 ++ [.sslShutdownCall]) := by
  constructor
  · intro h0
    have hres : (e.result == 0) = true := by simp [h0]
    refine ⟨?_, ?_, ?_⟩
    · cases second <;> simp [shutdown, hL, hres]
    · intro b
      cases second <;>
        simp [shutdown, hL, hres, List.mem_append,
          check_nbio_no_read_ahead_event]
    · cases second <;> simp [shutdown, hL, hres, check_nbio_read_ahead]
  · intro h0
    have hres : (e.result == 0) = false := by simp [h0]
    constructor <;> simp [shutdown, hL, hres]

/-- Witness for claim C5 at concrete inputs. -/
theorem claim_C5_witness :
    (shutdown stWit none none (.error errOther) (.ok ())).2.1
      = (check_nbio stWit none none).2
          ++ [.sslShutdownCall, .sslShutdownCall]
    ∧ (shutdown stWit none none (.error errWR) (.ok ())).2.2
      = .error (.openssl errWR) :=
  ⟨((claim_C5 stWit none none errOther (.ok ()) rfl).1 rfl).1,
   ((claim_C5 stWit none none errWR (.ok ()) rfl).2 (by decide)).1⟩

/-- Claim C6: shutdown() on a server-Listener association returns without
raising and leaves the entire association state unchanged, whatever that
state is. -/
theorem claim_C6 (st : ConnState) (sockT rsockT : Option Rat)
    (first second : Except OpenSSLError Unit) (hL : st.has_listening = true) :
    shutdown st sockT rsockT first second = (st, [], .ok .listenerNoop) := by
  simp [shutdown, hL]

/-- Witness for claim C6 at concrete inputs. -/
theorem claim_C6_witness :
    shutdown stWitL none none (.ok ()) (.ok ())
      = (stWitL, [], .ok .listenerNoop) :=
  claim_C6 stWitL none none (.ok ()) (.ok ()) rfl

/-- Claim C7: getpeercert returns None when no certificate was received;
with binary_form it returns the DER bytes of the peer certificate; without
binary_form it returns the empty dictionary exactly in the not-validated
configuration (cert_reqs = CERT_NONE) and otherwise the decoded
certificate dictionary. -/
theorem claim_C7 (decode_cert : List Nat → List (String × String))
    (cert_reqs : Nat) (peer_der : Option (List Nat)) (binary_form : Bool) :
    (peer_der = none → getpeercert decode_cert cert_reqs peer_der binary_form = none)
    ∧ (∀ d, peer_der = some d → binary_form = true →
        getpeercert decode_cert cert_reqs peer_der binary_form = some (.der d))
    ∧ (∀ d, peer_der = some d → binary_form = false → cert_reqs = CERT_NONE →
        getpeercert decode_cert cert_reqs peer_der binary_form = some (.dict []))
    ∧ (∀ d, peer_der = some d → binary_form = false → cert_reqs ≠ CERT_NONE →
        getpeercert decode_cert cert_reqs peer_der binary_form
          = some (.dict (decode_cert d))) := by
  refine ⟨?_, ?_, ?_, ?_⟩
  · intro h
    subst h
    rfl
  · intro d hd hb
    subst hd
    subst hb
    rfl
  · intro d hd hb hc
    subst hd
    subst hb
    simp [getpeercert, hc]
  · intro d hd hb hc
    subst hd
    subst hb
    simp [getpeercert, hc]

/-- Witness for claim C7 at concrete inputs. -/
theorem claim_C7_witness :
    getpeercert (fun _ => [("subject", "x")]) CERT_REQUIRED (some [48, 1]) true
      = some (.der [48, 1])
    ∧ getpeercert (fun _ => [("subject", "x")]) CERT_NONE (some [48, 1]) false
      = some (.dict [])
    ∧ getpeercert (fun _ => [("subject", "x")]) CERT_REQUIRED (some [48, 1]) false
      = some (.dict [("subject", "x")])
    ∧ getpeercert (fun _ => [("subject", "x")]) CERT_REQUIRED none false = none :=
  ⟨(claim_C7 (fun _ => [("subject", "x")]) CERT_REQUIRED (some [48, 1]) true).2.1
      [48, 1] rfl rfl,
   (claim_C7 (fun _ => [("subject", "x")]) CERT_NONE (some [48, 1]) false).2.2.1
      [48, 1] rfl rfl rfl,
   (claim_C7 (fun _ => [("subject", "x")]) CERT_REQUIRED (some [48, 1]) false).2.2.2
      [48, 1] rfl rfl (by decide),
   (claim_C7 (fun _ => [("subject", "x")]) CERT_REQUIRED none false).1 rfl⟩

/-- Claim C9: the cookie-callback trampolines catch every exception of the
registered callback, log it, and return the failure indication 0 to the
crypto library instead of propagating; a non-raising generate callback
has its cookie copied out and 1 returned, and a non-raising verify
callback yields 1. -/
theorem claim_C9 (g : Except String (List Nat)) (v : Except String Unit) :
    (∀ msg, g = .error msg → py_generate_cookie_cb g = (0, none, true))
    ∧ (∀ c, g = .ok c → py_generate_cookie_cb g = (1, some c, false))
    ∧ (∀ msg, v = .error msg → py_verify_cookie_cb v = (0, true))
    ∧ (v = .ok () → py_verify_cookie_cb v = (1, false)) := by
  refine ⟨?_, ?_, ?_, ?_⟩ <;> intros <;> subst_vars <;> rfl

/-- Witness for claim C9 at concrete inputs. -/
theorem claim_C9_witness :
    py_generate_cookie_cb (.error "boom") = (0, none, true)
    ∧ py_generate_cookie_cb (.ok [5, 6]) = (1, some [5, 6], false)
    ∧ py_verify_cookie_cb (.error "mismatch") = (0, true)
    ∧ py_verify_cookie_cb (.ok ()) = (1, false) :=
  ⟨(claim_C9 (.error "boom") (.error "mismatch")).1 "boom" rfl,
   (claim_C9 (.ok [5, 6]) (.ok ())).2.1 [5, 6] rfl,
   (claim_C9 (.ok [5, 6]) (.error "mismatch")).2.2.1 "mismatch" rfl,
   (claim_C9 (.ok [5, 6]) (.ok ())).2.2.2 rfl⟩

/-- Claim C3: when the DTLSv1_listen primitive fails inside listen(), a
WANT_READ failure makes listen() return None without raising, a failure
whose error queue reports a cookie mismatch in its first entry makes
listen() return None without raising (the datagram is silently dropped),
and every other failure of the primitive propagates to the caller. -/
theorem claim_C3 (st : ConnState) (sockT rsockT : Option Rat) (dp : DemuxPeer)
    (err : OpenSSLError) :
    (err.ssl_error = SSL_ERROR_WANT_READ →
      (listen st sockT rsockT (.peer (some dp)) (.error err)).2 = .ok none)
    ∧ (errqueue_head_cookie_mismatch err = true →
      (listen st sockT rsockT (.peer (some dp)) (.error err)).2 = .ok none)
    ∧ (err.ssl_error ≠ SSL_ERROR_WANT_READ →
       errqueue_head_cookie_mismatch err = false →
      (listen st sockT rsockT (.peer (some dp)) (.error err)).2
        = .error (.openssl err)) := by
  refine ⟨?_, ?_, ?_⟩
  · intro h
    cases dp <;> simp [listen, h]
  · intro h
    cases dp <;> (simp only [listen]; split <;> simp [h])
  · intro h1 h2
    cases dp <;> simp [listen, h1, h2]

/-- Witness for claim C3 at concrete inputs. -/
theorem claim_C3_witness :
    (listen stWit none none (.peer (some (.tuple (.v4 "4.4.4.4" 4))))
        (.error errWR)).2 = .ok none
    ∧ (listen stWit none none (.peer (some (.tuple (.v4 "4.4.4.4" 4))))
        (.error errCM)).2 = .ok none
    ∧ (listen stWit none none (.peer (some (.tuple (.v4 "4.4.4.4" 4))))
        (.error errOther)).2 = .error (.openssl errOther) :=
  ⟨(claim_C3 stWit none none (.tuple (.v4 "4.4.4.4" 4)) errWR).1 rfl,
   (claim_C3 stWit none none (.tuple (.v4 "4.4.4.4" 4)) errCM).2.1 rfl,
   (claim_C3 stWit none none (.tuple (.v4 "4.4.4.4" 4)) errOther).2.2
     (by decide) rfl⟩

/-- Claim C10: every call to listen() clears the pending peer address
before reading from the demux: afterwards the pending peer address equals
exactly what listen() returned (None on every raising or peerless path),
and the result of listen() is independent of whatever pending peer a
previous call had left behind. -/
theorem claim_C10 (st : ConnState) (sockT rsockT : Option Rat)
    (svc : ServiceResult) (dtls : Except OpenSSLError AddrTuple) :
    ((listen st sockT rsockT svc dtls).1.pending_peer_address
      = (match (listen st sockT rsockT svc dtls).2 with
         | .ok r => r
         | .error _ => none))
    ∧ (∀ x, listen { st with pending_peer_address := x } sockT rsockT svc dtls
        = listen st sockT rsockT svc dtls) := by
  constructor
  · cases svc with
    | timeout => rfl
    | sockFail errnum =>
      simp only [listen]
      split <;> rfl
    | peer p =>
      cases p with
      | none => rfl
      | some dp =>
        cases dtls with
        | ok a => cases dp <;> rfl
        | error err =>
          cases dp <;> simp only [listen]
          all_goals
            split
            next => simp [check_nbio_pending]
            next =>
              split <;> simp [check_nbio_pending]
  · intro x
    rfl

/-- Claim C8: decoding inverts encoding of address tuples through the
sockaddr_u storage for both address families, given that the platform
conversions round-trip on the host string and the numeric components fit
their wire widths (16-bit port, 32-bit flowinfo and scope id). -/
theorem claim_C8 (pton4 pton6 : String → List Nat) (ntop4 ntop6 : List Nat → String) :
    (∀ h p, p < 65536 → ntop4 (pton4 h) = h →
      addr_tuple_from_sockaddr_u ntop4 ntop6
        (sockaddr_u_from_addr_tuple pton4 pton6 (.v4 h p)) = .v4 h p)
    ∧ (∀ h p f s, p < 65536 → f < 4294967296 → s < 4294967296 →
        ntop6 (pton6 h) = h →
      addr_tuple_from_sockaddr_u ntop4 ntop6
        (sockaddr_u_from_addr_tuple pton4 pton6 (.v6 h p f s)) = .v6 h p f s) := by
  constructor
  · intro h p hp hr
    simp [sockaddr_u_from_addr_tuple, addr_tuple_from_sockaddr_u, AF_INET,
      AF_INET6, hr, ntohs_htons p hp]
  · intro h p f s hp hf hs hr
    simp [sockaddr_u_from_addr_tuple, addr_tuple_from_sockaddr_u, AF_INET,
      AF_INET6, hr, ntohs_htons p hp, ntohl_htonl f hf, ntohl_htonl s hs]

/-- Witness for claim C8 at concrete inputs: one-point platform
conversions that round-trip on the given hosts. -/
theorem claim_C8_witness :
    addr_tuple_from_sockaddr_u (fun _ => "1.2.3.4") (fun _ => "fe80::1")
      (sockaddr_u_from_addr_tuple (fun _ => [67305985]) (fun _ => [1, 2, 3, 4])
        (.v4 "1.2.3.4" 5000)) = .v4 "1.2.3.4" 5000
    ∧ addr_tuple_from_sockaddr_u (fun _ => "1.2.3.4") (fun _ => "fe80::1")
      (sockaddr_u_from_addr_tuple (fun _ => [67305985]) (fun _ => [1, 2, 3, 4])
        (.v6 "fe80::1" 443 7 9)) = .v6 "fe80::1" 443 7 9 :=
  ⟨(claim_C8 (fun _ => [67305985]) (fun _ => [1, 2, 3, 4])
      (fun _ => "1.2.3.4") (fun _ => "fe80::1")).1 "1.2.3.4" 5000
      (by decide) rfl,
   (claim_C8 (fun _ => [67305985]) (fun _ => [1, 2, 3, 4])
      (fun _ => "1.2.3.4") (fun _ => "fe80::1")).2 "fe80::1" 443 7 9
      (by decide) (by decide) (by decide) rfl⟩

theorem toNat_digitChar10 (d : Nat) (hd : d < 10) : (digitChar10 d).toNat = 48 + d := by
  interval_cases d <;> decide

theorem parseNat_natChars (n : Nat) : parseNat (natChars n) = n := by
  unfold natChars
  split
  · rename_i h
    subst h
    decide
  · rename_i h
    unfold parseNat
    rw [List.reverse_reverse, List.map_map]
    have hcg : (Nat.digits 10 n).map (charVal ∘ digitChar10)
        = (Nat.digits 10 n).map id := by
      apply List.map_congr_left
      intro d hd
      have hlt : d < 10 := Nat.digits_lt_base (by norm_num) hd
      simp only [Function.comp_apply, charVal, toNat_digitChar10 d hlt, id]
      omega
    rw [hcg, List.map_id, Nat.ofDigits_digits]

theorem natChars_inj {m n : Nat} (h : natChars m = natChars n) : m = n := by
  have hm := parseNat_natChars m
  rw [h, parseNat_natChars] at hm
  omega

theorem natChars_ne_nil (n : Nat) : natChars n ≠ [] := by
  unfold natChars
  split
  · simp
  · rename_i h
    simp [Nat.digits_ne_nil_iff_ne_zero, h]

theorem isDigitCh_natChars (n : Nat) : ∀ c ∈ natChars n, isDigitCh c = true := by
  unfold natChars
  split
  · intro c hc
    simp only [List.mem_singleton] at hc
    subst hc
    decide
  · intro c hc
    rw [List.mem_reverse, List.mem_map] at hc
    obtain ⟨d, hd, rfl⟩ := hc
    have hlt : d < 10 := Nat.digits_lt_base (by norm_num) hd
    simp only [isDigitCh, toNat_digitChar10 d hlt, Bool.and_eq_true,
      decide_eq_true_eq]
    omega

theorem split_first (p : Char → Bool) (a1 : List Char) :
    ∀ (a2 r1 r2 : List Char) (b1 b2 : Char),
    (∀ c ∈ a1, p c = true) → (∀ c ∈ a2, p c = true) →
    p b1 = false → p b2 = false →
    a1 ++ b1 :: r1 = a2 ++ b2 :: r2 → a1 = a2 ∧ b1 = b2 ∧ r1 = r2 := by
  induction a1 with
  | nil =>
    intro a2 r1 r2 b1 b2 h1 h2 hb1 hb2 he
    cases a2 with
    | nil => simpa using he
    | cons x t =>
      simp only [List.nil_append, List.cons_append, List.cons.injEq] at he
      have hx := h2 x (by simp)
      rw [he.1] at hb1
      rw [hx] at hb1
      simp at hb1
  | cons x t ih =>
    intro a2 r1 r2 b1 b2 h1 h2 hb1 hb2 he
    cases a2 with
    | nil =>
      simp only [List.nil_append, List.cons_append, List.cons.injEq] at he
      have hx := h1 x (by simp)
      rw [he.1] at hx
      rw [hx] at hb2
      simp at hb2
    | cons y u =>
      simp only [List.cons_append, List.cons.injEq] at he
      obtain ⟨rfl, ht⟩ := he
      obtain ⟨ha, hb, hr⟩ := ih u r1 r2 b1 b2 (fun c hc => h1 c (by simp [hc]))
        (fun c hc => h2 c (by simp [hc])) hb1 hb2 ht
      exact ⟨by rw [ha], hb, hr⟩

theorem numsRender_single (n : Nat) : numsRender [n] = natChars n := by
  simp [numsRender]

theorem numsRender_cons_cons (n m : Nat) (l : List Nat) :
    numsRender (n :: m :: l) = natChars n ++ ',' :: ' ' :: numsRender (m :: l) := rfl

theorem numsRender_cons (n : Nat) (l : List Nat) :
    ∃ t, numsRender (n :: l) = natChars n ++ t :=
  ⟨_, rfl⟩

theorem numsRender_split (l1 : List Nat) :
    ∀ (l2 : List Nat) (r1 r2 : List Char),
    numsRender l1 ++ ')' :: r1 = numsRender l2 ++ ')' :: r2 →
    l1 = l2 ∧ r1 = r2 := by
  induction l1 with
  | nil =>
    intro l2 r1 r2 he
    cases l2 with
    | nil => simpa using he
    | cons m rest2 =>
      exfalso
      obtain ⟨tl, htl⟩ := numsRender_cons m rest2
      rw [htl] at he
      obtain ⟨c, cs, hcons⟩ := List.exists_cons_of_ne_nil (natChars_ne_nil m)
      rw [hcons] at he
      simp only [numsRender, List.nil_append, List.cons_append,
        List.append_assoc, List.cons.injEq] at he
      have hc := isDigitCh_natChars m c (by rw [hcons]; simp)
      rw [← he.1] at hc
      exact absurd hc (by decide)
  | cons n rest ih =>
    intro l2 r1 r2 he
    cases l2 with
    | nil =>
      exfalso
      obtain ⟨tl, htl⟩ := numsRender_cons n rest
      rw [htl] at he
      obtain ⟨c, cs, hcons⟩ := List.exists_cons_of_ne_nil (natChars_ne_nil n)
      rw [hcons] at he
      simp only [numsRender, List.nil_append, List.cons_append,
        List.append_assoc, List.cons.injEq] at he
      have hc := isDigitCh_natChars n c (by rw [hcons]; simp)
      rw [he.1] at hc
      exact absurd hc (by decide)
    | cons m rest2 =>
      cases rest with
      | nil =>
        cases rest2 with
        | nil =>
          rw [numsRender_single, numsRender_single] at he
          obtain ⟨hnm, -, hr⟩ := split_first isDigitCh (natChars n) (natChars m)
            r1 r2 ')' ')' (isDigitCh_natChars n) (isDigitCh_natChars m)
            (by decide) (by decide) he
          exact ⟨by rw [natChars_inj hnm], hr⟩
        | cons m2 rest2 =>
          exfalso
          have he2 : natChars n ++ ')' :: r1
              = natChars m ++ ',' :: ' ' :: (numsRender (m2 :: rest2) ++ ')' :: r2) := by
            simpa only [numsRender_single, numsRender_cons_cons,
              List.append_assoc, List.cons_append] using he
          obtain ⟨-, hbb, -⟩ := split_first isDigitCh (natChars n) (natChars m)
            r1 (' ' :: (numsRender (m2 :: rest2) ++ ')' :: r2)) ')' ','
            (isDigitCh_natChars n) (isDigitCh_natChars m)
            (by decide) (by decide) he2
          simp at hbb
      | cons n2 rest =>
        cases rest2 with
        | nil =>
          exfalso
          have he2 : natChars n ++ ',' :: ' ' :: (numsRender (n2 :: rest) ++ ')' :: r1)
              = natChars m ++ ')' :: r2 := by
            simpa only [numsRender_single, numsRender_cons_cons,
              List.append_assoc, List.cons_append] using he
          obtain ⟨-, hbb, -⟩ := split_first isDigitCh (natChars n) (natChars m)
            (' ' :: (numsRender (n2 :: rest) ++ ')' :: r1)) r2 ',' ')'
            (isDigitCh_natChars n) (isDigitCh_natChars m)
            (by decide) (by decide) he2
          simp at hbb
        | cons m2 rest2 =>
          have he2 : natChars n ++ ',' :: ' ' :: (numsRender (n2 :: rest) ++ ')' :: r1)
              = natChars m ++ ',' :: ' ' :: (numsRender (m2 :: rest2) ++ ')' :: r2) := by
            simpa only [numsRender_cons_cons, List.append_assoc,
              List.cons_append] using he
          obtain ⟨hnm, -, htail⟩ := split_first isDigitCh (natChars n) (natChars m)
            (' ' :: (numsRender (n2 :: rest) ++ ')' :: r1))
            (' ' :: (numsRender (m2 :: rest2) ++ ')' :: r2)) ',' ','
            (isDigitCh_natChars n) (isDigitCh_natChars m)
            (by decide) (by decide) he2
          simp only [List.cons.injEq, true_and] at htail
          obtain ⟨hlr, hr⟩ := ih (m2 :: rest2) r1 r2 htail
          exact ⟨by rw [natChars_inj hnm, hlr], hr⟩

theorem hostOk_all {h : String} (hh : h.data.all notQuote = true) :
    ∀ c ∈ h.data, notQuote c = true := by
  rw [List.all_eq_true] at hh
  exact hh

theorem string_data_inj {s t : String} (h : s.data = t.data) : s = t := by
  cases s
  cases t
  exact congrArg String.mk h

theorem serializeAddr_inj (a1 a2 : AddrTuple) (h1 : hostOkAddr a1 = true)
    (h2 : hostOkAddr a2 = true) (he : serializeAddr a1 = serializeAddr a2) :
    a1 = a2 := by
  cases a1 with
  | v4 g1 p1 =>
    cases a2 with
    | v4 g2 p2 =>
      simp only [serializeAddr, List.cons.injEq, true_and] at he
      obtain ⟨hH, -, hR⟩ := split_first notQuote g1.data g2.data
        (',' :: ' ' :: (numsRender [p1] ++ [')']))
        (',' :: ' ' :: (numsRender [p2] ++ [')'])) quoteChar quoteChar
        (hostOk_all h1) (hostOk_all h2) (by decide) (by decide) he
      simp only [List.cons.injEq, true_and] at hR
      obtain ⟨hL, -⟩ := numsRender_split [p1] [p2] [] [] hR
      simp only [List.cons.injEq, and_true] at hL
      rw [string_data_inj hH, hL]
    | v6 g2 p2 f2 s2 =>
      exfalso
      simp only [serializeAddr, List.cons.injEq, true_and] at he
      obtain ⟨-, -, hR⟩ := split_first notQuote g1.data g2.data
        (',' :: ' ' :: (numsRender [p1] ++ [')']))
        (',' :: ' ' :: (numsRender [p2, f2, s2] ++ [')'])) quoteChar quoteChar
        (hostOk_all h1) (hostOk_all h2) (by decide) (by decide) he
      simp only [List.cons.injEq, true_and] at hR
      obtain ⟨hL, -⟩ := numsRender_split [p1] [p2, f2, s2] [] [] hR
      simp at hL
  | v6 g1 p1 f1 s1 =>
    cases a2 with
    | v4 g2 p2 =>
      exfalso
      simp only [serializeAddr, List.cons.injEq, true_and] at he
      obtain ⟨-, -, hR⟩ := split_first notQuote g1.data g2.data
        (',' :: ' ' :: (numsRender [p1, f1, s1] ++ [')']))
        (',' :: ' ' :: (numsRender [p2] ++ [')'])) quoteChar quoteChar
        (hostOk_all h1) (hostOk_all h2) (by decide) (by decide) he
      simp only [List.cons.injEq, true_and] at hR
      obtain ⟨hL, -⟩ := numsRender_split [p1, f1, s1] [p2] [] [] hR
      simp at hL
    | v6 g2 p2 f2 s2 =>
      simp only [serializeAddr, List.cons.injEq, true_and] at he
      obtain ⟨hH, -, hR⟩ := split_first notQuote g1.data g2.data
        (',' :: ' ' :: (numsRender [p1, f1, s1] ++ [')']))
        (',' :: ' ' :: (numsRender [p2, f2, s2] ++ [')'])) quoteChar quoteChar
        (hostOk_all h1) (hostOk_all h2) (by decide) (by decide) he
      simp only [List.cons.injEq, true_and] at hR
      obtain ⟨hL, -⟩ := numsRender_split [p1, f1, s1] [p2, f2, s2] [] [] hR
      simp only [List.cons.injEq, and_true] at hL
      rw [string_data_inj hH, hL.1, hL.2.1, hL.2.2]

theorem char_toNat_inj : Function.Injective Char.toNat := by
  intro a b h
  exact Char.eq_of_val_eq (UInt32.eq_of_toBitVec_eq (BitVec.toNat_injective h))

theorem hmWit_inj (key : List Nat) (m1 m2 : List Char)
    (h : hmWit key m1 = hmWit key m2) : m1 = m2 :=
  List.map_injective_iff.mpr char_toNat_inj h

theorem claim_C1 (hm : List Nat → List Char → List Nat) (key : List Nat)
    (hinj : ∀ m1 m2 : List Char, hm key m1 = hm key m2 → m1 = m2)
    (a b : AddrTuple) (ha : hostOkAddr a = true) (hb : hostOkAddr b = true) :
    (∀ c, verify_cookie hm key a c = true ↔ c = hm key (serializeAddr a))
    ∧ verify_cookie hm key a (generate_cookie hm key a) = true
    ∧ (a ≠ b → verify_cookie hm key a (generate_cookie hm key b) = false) := by
  refine ⟨fun c => ?_, ?_, fun hne => ?_⟩
  · simp only [verify_cookie, get_cookie, Option.getD_some, decide_eq_true_eq]
    exact eq_comm
  · simp [verify_cookie, generate_cookie, get_cookie]
  · simp only [verify_cookie, generate_cookie, get_cookie, Option.getD_some,
      decide_eq_false_iff_not]
    intro hEq
    exact hne (serializeAddr_inj a b ha hb (hinj _ _ hEq))

theorem claim_C1_witness :
    verify_cookie hmWit [] (.v4 "1.2.3.4" 80)
      (generate_cookie hmWit [] (.v4 "1.2.3.4" 80)) = true
    ∧ verify_cookie hmWit [] (.v4 "1.2.3.4" 80)
      (generate_cookie hmWit [] (.v4 "1.2.3.5" 80)) = false :=
  ⟨(claim_C1 hmWit [] (hmWit_inj []) (.v4 "1.2.3.4" 80) (.v4 "1.2.3.5" 80)
      (by decide) (by decide)).2.1,
   (claim_C1 hmWit [] (hmWit_inj []) (.v4 "1.2.3.4" 80) (.v4 "1.2.3.5" 80)
      (by decide) (by decide)).2.2 (by decide)⟩

end PyDTLS
